import Mathlib

/-!
Verification of the `StorageManager` façade (src/src/StorageManager.ts).

The façade validates its inputs dynamically (JavaScript `typeof` and
truthiness checks), assembles a request body, and forwards it to an
injected transport (`Fetcher.post`), returning the transport's envelope
unchanged.  We embed the JavaScript dynamics shallowly:

* `JSValue` models the runtime values a caller can pass.  Objects are
  modelled by an opaque reference (`obj id`), matching JavaScript's
  reference semantics: the façade never inspects the fields of an
  `options` object, it only forwards the reference.
* `typeof` and `truthy` model the JavaScript operators used by the code.
* Each façade method is embedded as a pure function from its arguments to
  `Except ClientError Request`, where `Request` records the path and body
  handed to `Fetcher.post`.  A second, call-level function pairs the list
  of issued requests with the outcome, so that "no network call" and
  "exactly one network call" are statable.
-/

/-- JavaScript runtime values relevant to the façade's dynamic checks.
Objects carry an opaque reference identity; the façade never reads their
fields. -/
inductive JSValue where
  | undef : JSValue
  | jsNull : JSValue
  | nan : JSValue
  | str : String → JSValue
  | num : Int → JSValue
  | boolean : Bool → JSValue
  | obj : Nat → JSValue
deriving DecidableEq, Repr

/-- The JavaScript `typeof` operator on the modelled values. -/
def typeof : JSValue → String
  | .undef => "undefined"
  | .jsNull => "object"
  | .nan => "number"
  | .str _ => "string"
  | .num _ => "number"
  | .boolean _ => "boolean"
  | .obj _ => "object"

/-- JavaScript truthiness: `undefined`, `null`, `NaN`, the empty string,
`0` and `false` are falsy; every other value, objects included, is truthy. -/
def truthy : JSValue → Bool
  | .undef => false
  | .jsNull => false
  | .nan => false
  | .str s => s ≠ ""
  | .num n => n ≠ 0
  | .boolean b => b
  | .obj _ => true

/-- The error thrown by the façade for local validation failures
(src/utils/ClientError, consumed contract: a code and a message). -/
structure ClientError where
  code : String
  message : String
deriving DecidableEq, Repr

/-- A request handed to the transport: the fixed path string and the body
object passed to `Fetcher.post` (`none` when `post` is called with no
body, as in `getStats`). -/
structure Request where
  path : String
  body : Option (List (String × JSValue))
deriving DecidableEq, Repr

/-- Modelled from the spec: `checkRequired` (src/utils/helpers) is not in
the source tree.  Per the spec, a required parameter "fails with
`InvalidArgument` if empty/absent", raised synchronously before any I/O;
we model absent as `undefined`/`null` and empty as the empty string, and
the `InvalidArgument` class by the code `missing_required_value`. -/
def checkRequired (fieldName : String) (v : JSValue) : Except ClientError Unit :=
  if v = .undef ∨ v = .jsNull ∨ v = .str "" then
    .error ⟨"missing_required_value", fieldName ++ " is a required parameter"⟩
  else
    .ok ()

/-- Modelled from the spec: `BucketManager` (src/BucketManager.ts) is not
in the source tree.  Consumed contract only: constructed with the bucket
identifier and the transport; the façade's responsibility ends at
construction, so we record the identifier the handle is bound to. -/
structure BucketManager where
  nameOrId : JSValue
deriving DecidableEq, Repr

/-- `StorageManager.bucket`: validates `nameOrId` with `checkRequired`,
then returns a new `BucketManager` bound to it.  Pure, no I/O. -/
def bucket (nameOrId : JSValue) : Except ClientError BucketManager := do
  checkRequired "bucket name or id" nameOrId
  return ⟨nameOrId⟩

/-- `StorageManager.root`: returns a `BucketManager` bound to the literal
identifier `root`.  No validation, no I/O. -/
def root : BucketManager := ⟨.str "root"⟩

/-- `StorageManager.createBucket`: validates `name` with `checkRequired`,
then posts `\x7bname, isPublic\x7d` to the create-bucket path.  The
`isPublic` parameter has declared default `true`, which in JavaScript
applies exactly when the argument is `undefined`. -/
def createBucketRequest (name isPublicArg : JSValue) : Except ClientError Request := do
  let isPublic := if isPublicArg = JSValue.undef then JSValue.boolean true else isPublicArg
  checkRequired "Bucket name" name
  return { path := "/_api/rest/v1/storage/create-bucket"
           body := some [("name", name), ("isPublic", isPublic)] }

/-- `StorageManager.listBuckets`: starting from `expVal = null` and
`optionsVal = null`, a truthy first argument is kept as the expression if
it is a string, kept as the options if it is an object, and otherwise
rejected with an `invalid_value` error; a truthy second argument is kept
as the options if it is an object and otherwise rejected.  The body
`\x7bexpression: expVal, options: optionsVal\x7d` is posted to the
list-buckets path. -/
def listBucketsRequest (expression options : JSValue) : Except ClientError Request := do
  let mut expVal : JSValue := .jsNull
  let mut optionsVal : JSValue := .jsNull
  if truthy expression then
    if typeof expression = "string" then
      expVal := expression
    else if typeof expression = "object" then
      optionsVal := expression
    else
      throw ⟨"invalid_value", "Bucket listing expression needs to be a string"⟩
  if truthy options then
    if typeof options = "object" then
      optionsVal := options
    else
      throw ⟨"invalid_value", "Bucket listing options need to be an object"⟩
  return { path := "/_api/rest/v1/storage/list-buckets"
           body := some [("expression", expVal), ("options", optionsVal)] }

/-- `StorageManager.getStats`: posts to the stats path with no body and
performs no validation. -/
def getStatsRequest : Except ClientError Request :=
  .ok { path := "/_api/rest/v1/storage/stats", body := none }

/-- `StorageManager.searchFiles`: validates `expression` with
`checkRequired`; a truthy `options` argument is kept if it is an object
and otherwise rejected with an `invalid_value` error; posts
`\x7bexpression, options: optionsVal\x7d` to the search-files path. -/
def searchFilesRequest (expression options : JSValue) : Except ClientError Request := do
  let mut optionsVal : JSValue := .jsNull
  checkRequired "search expression" expression
  if truthy options then
    if typeof options = "object" then
      optionsVal := options
    else
      throw ⟨"invalid_value", "File search options need to be an object"⟩
  return { path := "/_api/rest/v1/storage/search-files"
           body := some [("expression", expression), ("options", optionsVal)] }

/-- Runs a façade method against a transport `t`: if validation failed the
error propagates and no request is issued; otherwise the single assembled
request is posted and the transport's envelope is returned unchanged.
The first component is the list of requests issued, in order. -/
def runCall {E : Type} (t : Request → E) :
    Except ClientError Request → List Request × Except ClientError E
  | .error e => ([], .error e)
  | .ok r => ([r], .ok (t r))

/-- `createBucket` run against a transport. -/
def createBucketCall {E : Type} (t : Request → E) (name isPublicArg : JSValue) :
    List Request × Except ClientError E :=
  runCall t (createBucketRequest name isPublicArg)

/-- `listBuckets` run against a transport. -/
def listBucketsCall {E : Type} (t : Request → E) (expression options : JSValue) :
    List Request × Except ClientError E :=
  runCall t (listBucketsRequest expression options)

/-- `getStats` run against a transport. -/
def getStatsCall {E : Type} (t : Request → E) : List Request × Except ClientError E :=
  runCall t getStatsRequest

/-- `searchFiles` run against a transport. -/
def searchFilesCall {E : Type} (t : Request → E) (expression options : JSValue) :
    List Request × Except ClientError E :=
  runCall t (searchFilesRequest expression options)

/-- `bucket` run in the call model: it touches no transport, so the list
of issued requests is empty by construction, matching the source, which
never references the fetcher inside `bucket`. -/
def bucketCall (nameOrId : JSValue) : List Request × Except ClientError BucketManager :=
  ([], bucket nameOrId)

deriving instance DecidableEq for Except

/-- Whether an `Except` result is a success. -/
def exceptOk {ε α : Type} : Except ε α → Bool
  | .ok _ => true
  | .error _ => false

/-- Claim C1, counterexample: the empty string is a string, yet
`listBuckets` with the empty string as first argument does not send it as
the expression — the truthiness guard skips it, so the body sent carries
`expression: null`, not `expression: ""`. -/
theorem listBuckets_empty_string_counterexample :
    listBucketsRequest (.str "") .undef ≠
      .ok { path := "/_api/rest/v1/storage/list-buckets"
            body := some [("expression", .str ""), ("options", .jsNull)] } := by
  decide

/-- Claim C1 (amended to non-empty strings): a non-empty string first
argument is sent as the expression with options null; an object first
argument is sent as the options with expression null; with both arguments
absent both fields are sent as null. -/
theorem listBuckets_overload_resolution (e : String) (i : Nat) (he : e ≠ "") :
    listBucketsRequest (.str e) .undef =
      .ok { path := "/_api/rest/v1/storage/list-buckets"
            body := some [("expression", .str e), ("options", .jsNull)] } ∧
    listBucketsRequest (.obj i) .undef =
      .ok { path := "/_api/rest/v1/storage/list-buckets"
            body := some [("expression", .jsNull), ("options", .obj i)] } ∧
    listBucketsRequest .undef .undef =
      .ok { path := "/_api/rest/v1/storage/list-buckets"
            body := some [("expression", .jsNull), ("options", .jsNull)] } := by
  refine ⟨?_, ?_, ?_⟩ <;>
    simp [listBucketsRequest, truthy, typeof, he, pure, Except.pure, bind, Except.bind]

/-- Witness for `listBuckets_overload_resolution` at a concrete non-empty
string and a concrete object. -/
theorem listBuckets_overload_resolution_witness :
    listBucketsRequest (.str "x") .undef =
      .ok { path := "/_api/rest/v1/storage/list-buckets"
            body := some [("expression", .str "x"), ("options", .jsNull)] } ∧
    listBucketsRequest (.obj 0) .undef =
      .ok { path := "/_api/rest/v1/storage/list-buckets"
            body := some [("expression", .jsNull), ("options", .obj 0)] } ∧
    listBucketsRequest .undef .undef =
      .ok { path := "/_api/rest/v1/storage/list-buckets"
            body := some [("expression", .jsNull), ("options", .jsNull)] } :=
  listBuckets_overload_resolution "x" 0 (by decide)

/-- Claim C2, counterexample: the number `0` is provided and is neither a
string nor an object, yet `listBuckets 0` raises no error and issues one
network call; likewise the options argument `0` is provided and is not an
object, yet no error is raised. -/
theorem listBuckets_falsy_invalid_counterexample :
    (listBucketsCall (fun _ => (0 : Nat)) (.num 0) .undef).1.length = 1 ∧
    exceptOk (listBucketsCall (fun _ => (0 : Nat)) (.num 0) .undef).2 = true ∧
    (listBucketsCall (fun _ => (0 : Nat)) (.str "x") (.num 0)).1.length = 1 ∧
    exceptOk (listBucketsCall (fun _ => (0 : Nat)) (.str "x") (.num 0)).2 = true := by
  decide

/-- Claim C2 (amended to truthy arguments): a truthy first argument that
is neither a string nor an object makes `listBuckets` raise the
`invalid_value` expression error with no network call, whatever the
options argument; a truthy options argument that is not an object makes
it raise the `invalid_value` options error with no network call, for any
valid (falsy, string or object) first argument. -/
theorem listBuckets_truthy_invalid_types {E : Type} (t : Request → E) (v o e w : JSValue)
    (hv : truthy v = true) (hvs : typeof v ≠ "string") (hvo : typeof v ≠ "object")
    (he : truthy e = false ∨ typeof e = "string" ∨ typeof e = "object")
    (hw : truthy w = true) (hwo : typeof w ≠ "object") :
    ((listBucketsCall t v o).1 = [] ∧
      (listBucketsCall t v o).2 =
        .error ⟨"invalid_value", "Bucket listing expression needs to be a string"⟩) ∧
    ((listBucketsCall t e w).1 = [] ∧
      (listBucketsCall t e w).2 =
        .error ⟨"invalid_value", "Bucket listing options need to be an object"⟩) := by
  constructor
  · constructor <;>
      simp [listBucketsCall, runCall, listBucketsRequest, hv, hvs, hvo,
        throw, throwThe, MonadExceptOf.throw, bind, Except.bind]
  · have key : listBucketsRequest e w =
        .error ⟨"invalid_value", "Bucket listing options need to be an object"⟩ := by
      rcases he with he | he | he
      · simp [listBucketsRequest, he, hw, hwo,
          throw, throwThe, MonadExceptOf.throw, bind, Except.bind, pure, Except.pure]
      · by_cases ht : truthy e = true
        · simp [listBucketsRequest, he, ht, hw, hwo,
            throw, throwThe, MonadExceptOf.throw, bind, Except.bind, pure, Except.pure]
        · simp [listBucketsRequest, Bool.eq_false_iff.mpr ht, hw, hwo,
            throw, throwThe, MonadExceptOf.throw, bind, Except.bind, pure, Except.pure]
      · by_cases ht : truthy e = true
        · by_cases hts : typeof e = "string" <;>
            simp [listBucketsRequest, he, ht, hts, hw, hwo,
              throw, throwThe, MonadExceptOf.throw, bind, Except.bind, pure, Except.pure]
        · simp [listBucketsRequest, Bool.eq_false_iff.mpr ht, hw, hwo,
            throw, throwThe, MonadExceptOf.throw, bind, Except.bind, pure, Except.pure]
    constructor <;> simp [listBucketsCall, runCall, key]

/-- Witness for `listBuckets_truthy_invalid_types` at the number `42` as
first argument and the number `5` as options. -/
theorem listBuckets_truthy_invalid_types_witness :
    ((listBucketsCall (fun _ => (0 : Nat)) (.num 42) .undef).1 = [] ∧
      (listBucketsCall (fun _ => (0 : Nat)) (.num 42) .undef).2 =
        .error ⟨"invalid_value", "Bucket listing expression needs to be a string"⟩) ∧
    ((listBucketsCall (fun _ => (0 : Nat)) .undef (.num 5)).1 = [] ∧
      (listBucketsCall (fun _ => (0 : Nat)) .undef (.num 5)).2 =
        .error ⟨"invalid_value", "Bucket listing options need to be an object"⟩) :=
  listBuckets_truthy_invalid_types (fun _ => (0 : Nat)) (.num 42) .undef .undef (.num 5)
    (by decide) (by decide) (by decide) (Or.inl (by decide)) (by decide) (by decide)

/-- Claim C3, counterexample: the empty string is a present expression
argument, yet `searchFiles` raises the required-parameter error instead
of posting the body; and the number `0` is a present non-object options
argument, yet no `invalid_value` error is raised — the body is posted
with options null. -/
theorem searchFiles_present_args_counterexample :
    searchFilesRequest (.str "") .undef =
      .error ⟨"missing_required_value", "search expression is a required parameter"⟩ ∧
    searchFilesRequest (.str "x") (.num 0) =
      .ok { path := "/_api/rest/v1/storage/search-files"
            body := some [("expression", .str "x"), ("options", .jsNull)] } := by
  decide

/-- Claim C3 (amended): with the expression argument absent or empty, the
required-parameter error is raised and no request is issued, whatever the
options argument; with a present non-empty expression, the body carries
the expression with options normalized to null when falsy and kept when
an object; a truthy non-object options argument raises the
`invalid_value` error with no request issued. -/
theorem searchFiles_validation {E : Type} (t : Request → E) (a o2 x o w : JSValue) (i : Nat)
    (ha : a = .undef ∨ a = .jsNull ∨ a = .str "")
    (hx : x ≠ .undef ∧ x ≠ .jsNull ∧ x ≠ .str "")
    (ho : truthy o = false)
    (hw : truthy w = true) (hwo : typeof w ≠ "object") :
    ((searchFilesCall t a o2).1 = [] ∧
      (searchFilesCall t a o2).2 =
        .error ⟨"missing_required_value", "search expression is a required parameter"⟩) ∧
    searchFilesCall t x o =
      ([{ path := "/_api/rest/v1/storage/search-files"
          body := some [("expression", x), ("options", .jsNull)] }],
        .ok (t { path := "/_api/rest/v1/storage/search-files"
                 body := some [("expression", x), ("options", .jsNull)] })) ∧
    searchFilesCall t x (.obj i) =
      ([{ path := "/_api/rest/v1/storage/search-files"
          body := some [("expression", x), ("options", .obj i)] }],
        .ok (t { path := "/_api/rest/v1/storage/search-files"
                 body := some [("expression", x), ("options", .obj i)] })) ∧
    ((searchFilesCall t x w).1 = [] ∧
      (searchFilesCall t x w).2 =
        .error ⟨"invalid_value", "File search options need to be an object"⟩) := by
  obtain ⟨hx1, hx2, hx3⟩ := hx
  refine ⟨?_, ?_, ?_, ?_⟩
  · have key : searchFilesRequest a o2 =
        .error ⟨"missing_required_value", "search expression is a required parameter"⟩ := by
      rcases ha with ha | ha | ha <;>
        simp [searchFilesRequest, ha, checkRequired, bind, Except.bind]
    simp [searchFilesCall, runCall, key]
  · simp [searchFilesCall, runCall, searchFilesRequest, checkRequired, hx1, hx2, hx3, ho,
      bind, Except.bind, pure, Except.pure]
  · simp [searchFilesCall, runCall, searchFilesRequest, checkRequired, hx1, hx2, hx3,
      truthy, typeof, bind, Except.bind, pure, Except.pure]
  · have key : searchFilesRequest x w =
        .error ⟨"invalid_value", "File search options need to be an object"⟩ := by
      simp [searchFilesRequest, checkRequired, hx1, hx2, hx3, hw, hwo,
        throw, throwThe, MonadExceptOf.throw, bind, Except.bind, pure, Except.pure]
    simp [searchFilesCall, runCall, key]

/-- Witness for `searchFiles_validation` at concrete inputs: absent
expression, the expression string `f`, falsy options, the object `0`, and
the non-object options `true`. -/
theorem searchFiles_validation_witness :
    ((searchFilesCall (fun _ => (0 : Nat)) .undef .undef).1 = [] ∧
      (searchFilesCall (fun _ => (0 : Nat)) .undef .undef).2 =
        .error ⟨"missing_required_value", "search expression is a required parameter"⟩) ∧
    searchFilesCall (fun _ => (0 : Nat)) (.str "f") .undef =
      ([{ path := "/_api/rest/v1/storage/search-files"
          body := some [("expression", .str "f"), ("options", .jsNull)] }],
        .ok 0) ∧
    searchFilesCall (fun _ => (0 : Nat)) (.str "f") (.obj 0) =
      ([{ path := "/_api/rest/v1/storage/search-files"
          body := some [("expression", .str "f"), ("options", .obj 0)] }],
        .ok 0) ∧
    ((searchFilesCall (fun _ => (0 : Nat)) (.str "f") (.boolean true)).1 = [] ∧
      (searchFilesCall (fun _ => (0 : Nat)) (.str "f") (.boolean true)).2 =
        .error ⟨"invalid_value", "File search options need to be an object"⟩) :=
  searchFiles_validation (fun _ => (0 : Nat)) .undef .undef (.str "f") .undef (.boolean true) 0
    (Or.inl rfl) ⟨by decide, by decide, by decide⟩ (by decide) (by decide) (by decide)

/-- Claim C4: an empty or absent bucket name raises the required-parameter
error with no request issued, whatever the privacy argument; a non-empty
name posts exactly one request with the name and the privacy flag, the
flag defaulting to true when the argument is absent; in particular
createBucket of the name logs with privacy false sends that exact body. -/
theorem createBucket_spec {E : Type} (t : Request → E) (a ip p : JSValue) (s : String)
    (ha : a = .undef ∨ a = .jsNull ∨ a = .str "")
    (hs : s ≠ "") (hp : p ≠ .undef) :
    ((createBucketCall t a ip).1 = [] ∧
      (createBucketCall t a ip).2 =
        .error ⟨"missing_required_value", "Bucket name is a required parameter"⟩) ∧
    createBucketCall t (.str s) .undef =
      ([{ path := "/_api/rest/v1/storage/create-bucket"
          body := some [("name", .str s), ("isPublic", .boolean true)] }],
        .ok (t { path := "/_api/rest/v1/storage/create-bucket"
                 body := some [("name", .str s), ("isPublic", .boolean true)] })) ∧
    createBucketCall t (.str s) p =
      ([{ path := "/_api/rest/v1/storage/create-bucket"
          body := some [("name", .str s), ("isPublic", p)] }],
        .ok (t { path := "/_api/rest/v1/storage/create-bucket"
                 body := some [("name", .str s), ("isPublic", p)] })) ∧
    createBucketCall t (.str "logs") (.boolean false) =
      ([{ path := "/_api/rest/v1/storage/create-bucket"
          body := some [("name", .str "logs"), ("isPublic", .boolean false)] }],
        .ok (t { path := "/_api/rest/v1/storage/create-bucket"
                 body := some [("name", .str "logs"), ("isPublic", .boolean false)] })) := by
  refine ⟨?_, ?_, ?_, ?_⟩
  · have key : createBucketRequest a ip =
        .error ⟨"missing_required_value", "Bucket name is a required parameter"⟩ := by
      rcases ha with ha | ha | ha <;>
        simp [createBucketRequest, ha, checkRequired, bind, Except.bind]
    simp [createBucketCall, runCall, key]
  · simp [createBucketCall, runCall, createBucketRequest, checkRequired, hs,
      bind, Except.bind, pure, Except.pure]
  · simp [createBucketCall, runCall, createBucketRequest, checkRequired, hs, hp,
      bind, Except.bind, pure, Except.pure]
  · simp [createBucketCall, runCall, createBucketRequest, checkRequired,
      bind, Except.bind, pure, Except.pure]

/-- Witness for `createBucket_spec` at the empty name, the name logs, and
the explicit privacy flag false. -/
theorem createBucket_spec_witness :
    ((createBucketCall (fun _ => (0 : Nat)) (.str "") .undef).1 = [] ∧
      (createBucketCall (fun _ => (0 : Nat)) (.str "") .undef).2 =
        .error ⟨"missing_required_value", "Bucket name is a required parameter"⟩) ∧
    createBucketCall (fun _ => (0 : Nat)) (.str "logs") .undef =
      ([{ path := "/_api/rest/v1/storage/create-bucket"
          body := some [("name", .str "logs"), ("isPublic", .boolean true)] }],
        .ok 0) ∧
    createBucketCall (fun _ => (0 : Nat)) (.str "logs") (.boolean false) =
      ([{ path := "/_api/rest/v1/storage/create-bucket"
          body := some [("name", .str "logs"), ("isPublic", .boolean false)] }],
        .ok 0) ∧
    createBucketCall (fun _ => (0 : Nat)) (.str "logs") (.boolean false) =
      ([{ path := "/_api/rest/v1/storage/create-bucket"
          body := some [("name", .str "logs"), ("isPublic", .boolean false)] }],
        .ok 0) :=
  createBucket_spec (fun _ => (0 : Nat)) (.str "") .undef (.boolean false) "logs"
    (Or.inr (Or.inr rfl)) (by decide) (by decide)

/-- Claim C5: every façade method hands back the transport's envelope
unchanged — its outcome is exactly the transport's value at the assembled
request, for every transport and every choice of arguments. -/
theorem envelope_passthrough {E : Type} (t : Request → E) (n ip e o x so : JSValue) :
    (createBucketCall t n ip).2 = Except.map t (createBucketRequest n ip) ∧
    (listBucketsCall t e o).2 = Except.map t (listBucketsRequest e o) ∧
    (getStatsCall t).2 = Except.map t getStatsRequest ∧
    (searchFilesCall t x so).2 = Except.map t (searchFilesRequest x so) := by
  refine ⟨?_, ?_, ?_, ?_⟩
  · cases h : createBucketRequest n ip <;>
      simp [createBucketCall, runCall, Except.map, h]
  · cases h : listBucketsRequest e o <;>
      simp [listBucketsCall, runCall, Except.map, h]
  · simp [getStatsCall, getStatsRequest, runCall, Except.map]
  · cases h : searchFilesRequest x so <;>
      simp [searchFilesCall, runCall, Except.map, h]

/-- Claim C6: every invocation of the four networked façade methods
issues exactly one transport request when it does not raise a local
validation error, and zero requests when it does. -/
theorem exactly_one_request {E : Type} (t : Request → E) (n ip e o x so : JSValue) :
    ((createBucketCall t n ip).1.length =
      if exceptOk (createBucketCall t n ip).2 then 1 else 0) ∧
    ((listBucketsCall t e o).1.length =
      if exceptOk (listBucketsCall t e o).2 then 1 else 0) ∧
    ((getStatsCall t).1.length = if exceptOk (getStatsCall t).2 then 1 else 0) ∧
    ((searchFilesCall t x so).1.length =
      if exceptOk (searchFilesCall t x so).2 then 1 else 0) := by
  refine ⟨?_, ?_, ?_, ?_⟩
  · cases h : createBucketRequest n ip <;>
      simp [createBucketCall, runCall, exceptOk, h]
  · cases h : listBucketsRequest e o <;>
      simp [listBucketsCall, runCall, exceptOk, h]
  · simp [getStatsCall, getStatsRequest, runCall, exceptOk]
  · cases h : searchFilesRequest x so <;>
      simp [searchFilesCall, runCall, exceptOk, h]

/-- Claim C7: an empty or absent identifier makes `bucket` raise the
required-parameter error with no request issued; a non-empty identifier
yields a handle bound to exactly that identifier with no request issued;
and `root` is the handle bound to the literal identifier root. -/
theorem bucket_root_spec (a n : JSValue)
    (ha : a = .undef ∨ a = .jsNull ∨ a = .str "")
    (hn : n ≠ .undef ∧ n ≠ .jsNull ∧ n ≠ .str "") :
    ((bucketCall a).1 = [] ∧
      (bucketCall a).2 =
        .error ⟨"missing_required_value", "bucket name or id is a required parameter"⟩) ∧
    bucketCall n = ([], .ok ⟨n⟩) ∧
    root = ⟨.str "root"⟩ := by
  obtain ⟨hn1, hn2, hn3⟩ := hn
  refine ⟨⟨rfl, ?_⟩, ?_, rfl⟩
  · rcases ha with ha | ha | ha <;>
      simp [bucketCall, bucket, ha, checkRequired, bind, Except.bind]
  · simp [bucketCall, bucket, checkRequired, hn1, hn2, hn3,
      bind, Except.bind, pure, Except.pure]

/-- Witness for `bucket_root_spec` at the absent identifier and the
identifier photos. -/
theorem bucket_root_spec_witness :
    ((bucketCall .undef).1 = [] ∧
      (bucketCall .undef).2 =
        .error ⟨"missing_required_value", "bucket name or id is a required parameter"⟩) ∧
    bucketCall (.str "photos") = ([], .ok ⟨.str "photos"⟩) ∧
    root = ⟨.str "root"⟩ :=
  bucket_root_spec .undef (.str "photos") (Or.inl rfl) ⟨by decide, by decide, by decide⟩

/-- Claim C8: `getStats` performs no validation and issues exactly one
request to the fixed stats path with no body, returning the transport's
envelope for it. -/
theorem getStats_spec {E : Type} (t : Request → E) :
    getStatsCall t =
      ([{ path := "/_api/rest/v1/storage/stats", body := none }],
        .ok (t { path := "/_api/rest/v1/storage/stats", body := none })) := by
  simp [getStatsCall, getStatsRequest, runCall]

/-- Claim C9: a falsy first argument to `listBuckets` (zero, false, NaN,
the empty string, null or undefined) raises no error even when it is
neither a string nor an object: the type checks are skipped and one
request is sent with both expression and options null, a falsy options
argument being skipped the same way. -/
theorem listBuckets_falsy_skipped {E : Type} (t : Request → E) (v w : JSValue)
    (hv : truthy v = false) (hw : truthy w = false) :
    listBucketsCall t v w =
      ([{ path := "/_api/rest/v1/storage/list-buckets"
          body := some [("expression", .jsNull), ("options", .jsNull)] }],
        .ok (t { path := "/_api/rest/v1/storage/list-buckets"
                 body := some [("expression", .jsNull), ("options", .jsNull)] })) := by
  simp [listBucketsCall, runCall, listBucketsRequest, hv, hw,
    bind, Except.bind, pure, Except.pure]

/-- Witness for `listBuckets_falsy_skipped` at the falsy arguments zero
and NaN. -/
theorem listBuckets_falsy_skipped_witness :
    listBucketsCall (fun _ => (0 : Nat)) (.num 0) .nan =
      ([{ path := "/_api/rest/v1/storage/list-buckets"
          body := some [("expression", .jsNull), ("options", .jsNull)] }],
        .ok 0) :=
  listBuckets_falsy_skipped (fun _ => (0 : Nat)) (.num 0) .nan (by decide) (by decide)

/-- Claim C10: when both arguments to `listBuckets` are objects, the
first is assigned as options and then silently overwritten by the second:
one request is sent with expression null and options the second object,
and no error is raised. -/
theorem listBuckets_double_object {E : Type} (t : Request → E) (i j : Nat) :
    listBucketsCall t (.obj i) (.obj j) =
      ([{ path := "/_api/rest/v1/storage/list-buckets"
          body := some [("expression", .jsNull), ("options", .obj j)] }],
        .ok (t { path := "/_api/rest/v1/storage/list-buckets"
                 body := some [("expression", .jsNull), ("options", .obj j)] })) := by
  simp [listBucketsCall, runCall, listBucketsRequest, truthy, typeof,
    bind, Except.bind, pure, Except.pure]
